import Mathlib

/-
Verification of the MIRS swath-extraction frontend
(`polar2grid/mirs/mirs2swath.py`).

The Python module is shallowly embedded below.  Numeric array cells are
rationals (the module's float32 arithmetic consists of exact divisions on
file-supplied values at the granularity the properties are stated at), with
a distinguished not-a-number marker for the output fill value.  Python
exceptions are modelled with `Except PyErr`; a `.error` result from a
state-passing operation means the exception propagated and the caller's
state is unchanged.  ISO-8601 timestamp strings are parsed to `datetime`
values by the module; they are modelled as naturals preserving order.
`os.path.realpath` is modelled as the identity on paths.
-/

namespace MIRS

/-- Python exceptions raised (directly or indirectly) by the module.
`valueFreqNotFound` is the `ValueError` announcing a missing frequency
channel, `valueFormat` the `ValueError` for an unrecognized file format,
`runtimeFinalized` the `RuntimeError` for adding files after finalization,
`runtimeNoUseableFiles` the `RuntimeError` for an empty discovery result,
`valueAmbiguous` the numpy `ValueError` for the truth value of a
multi-element array, and `dimErr` marks array ranks the embedding does not
model (never produced on the module's actual variables). -/
inductive PyErr where
  | typeError
  | attributeError
  | keyError
  | indexError
  | ioError
  | valueFormat
  | valueFreqNotFound
  | valueAmbiguous
  | runtimeFinalized
  | runtimeNoUseableFiles
  | notImplementedDeps
  | notImplementedConcurrency
  | dimErr
  deriving DecidableEq, Repr

/-- Value of one cell of a decoded float array: an exact number or
not-a-number (the output fill value used by `get_swath_data`). -/
inductive NpVal where
  | num (q : ℚ)
  | nan
  deriving DecidableEq, Repr

/-- Decoded 2-D array: a list of rows. -/
abbrev Arr := List (List NpVal)

/-- Contents of one netCDF variable.  Rank-3 data is represented by its
list of 2-D slices along the frequency axis, which is the axis
`filter_by_frequency` indexes (`freq_dim_idx` in the source). -/
inductive VarData where
  | d1 (a : List ℚ)
  | d2 (a : List (List ℚ))
  | d3 (slices : List (List (List ℚ)))
  deriving DecidableEq, Repr

/-- A netCDF variable: its data plus its numeric attributes
(attribute name to value); `getattr` on a missing attribute raises
`AttributeError`. -/
structure NCVar where
  data : VarData
  attrs : List (String × ℚ)
  deriving DecidableEq, Repr

/-- A netCDF file's observable content: the global attributes the module
reads and the named variables.  `missing_value` is the optional file-wide
fill attribute (`GLOBAL_FILL_ATTR_NAME`). -/
structure NCFile where
  project : String
  title : String
  data_model : String
  satellite_name : String
  instrument_name : String
  time_coverage_start : ℕ
  time_coverage_end : ℕ
  geospatial_lon_resolution : ℚ
  geospatial_lat_resolution : ℚ
  missing_value : Option ℚ
  varlist : List (String × NCVar)
  deriving DecidableEq, Repr

/-- Look up a variable of the file by its netCDF name
(`self.nc_obj.variables[name]`; the mapping itself is the `varlist` field,
renamed because `variables` is reserved in Lean). -/
def NCFile.var? (nc : NCFile) (name : String) : Option NCVar :=
  (nc.varlist.find? (fun e => e.1 == name)).map (·.2)

/-- Look up a numeric attribute of a variable (`getattr(var, attr)`). -/
def NCVar.attr? (v : NCVar) (name : String) : Option ℚ :=
  (v.attrs.find? (fun e => e.1 == name)).map (·.2)

/-- File-type constant `FT_IMG`. -/
def FT_IMG : String := "MIRS_IMG"

/-- Logical variable name constants of the module. -/
def RR_VAR : String := "rr"

def BT_88_VAR : String := "bt_88"

def FREQ_VAR : String := "freq"

def LAT_VAR : String := "latitude"

def LON_VAR : String := "longitude"

/-- One entry of `MIRSFileReader.FILE_STRUCTURE`:
`(var_name, scale_attr_name, fill_attr_name, frequency)`. -/
structure FSEntry where
  var_name : String
  scale_attr_name : Option String
  fill_attr_name : Option String
  frequency : Option ℚ
  deriving DecidableEq, Repr

/-- The class constant `MIRSFileReader.FILE_STRUCTURE`; the brightness
temperature channel's frequency constant 88.2 is the rational 441/5. -/
def FILE_STRUCTURE (item : String) : Option FSEntry :=
  if item = RR_VAR then some ⟨"RR", some "scale", none, none⟩
  else if item = BT_88_VAR then some ⟨"BT", some "scale", none, some (mkRat 441 5)⟩
  else if item = FREQ_VAR then some ⟨"Freq", none, none, none⟩
  else if item = LAT_VAR then some ⟨"Latitude", none, none, none⟩
  else if item = LON_VAR then some ⟨"Longitude", none, none, none⟩
  else none

/-- Format validation `MIRSFileReader.handles_file`: the three global
descriptors must exactly match the expected constants. -/
def handles_file (nc : NCFile) : Bool :=
  nc.project == "Microwave Integrated Retrieval System" &&
  nc.title == "MIRS IMG" &&
  nc.data_model == "NETCDF4"

/-- One opened, validated MIRS granule file (`MIRSFileReader`). -/
structure MIRSFileReader where
  filepath : String
  nc : NCFile
  deriving DecidableEq, Repr

/-- Environment mapping a path to the netCDF file it opens, or `none` when
`Dataset(path, "r")` would fail. -/
abbrev FileEnv := String → Option NCFile

/-- Constructor `MIRSFileReader.__init__`: open the file and validate its
format, failing with `ValueError` on an unrecognized format. -/
def MIRSFileReader.open (env : FileEnv) (filepath : String) :
    Except PyErr MIRSFileReader :=
  match env filepath with
  | none => .error .ioError
  | some nc =>
    if handles_file nc then .ok ⟨filepath, nc⟩ else .error .valueFormat

def MIRSFileReader.satellite (r : MIRSFileReader) : String := r.nc.satellite_name

def MIRSFileReader.instrument (r : MIRSFileReader) : String := r.nc.instrument_name

def MIRSFileReader.begin_time (r : MIRSFileReader) : ℕ := r.nc.time_coverage_start

def MIRSFileReader.end_time (r : MIRSFileReader) : ℕ := r.nc.time_coverage_end

def MIRSFileReader.x_res (r : MIRSFileReader) : ℚ := r.nc.geospatial_lon_resolution

def MIRSFileReader.y_res (r : MIRSFileReader) : ℚ := r.nc.geospatial_lat_resolution

/-- Item access `MIRSFileReader.__getitem__`: items found in
`FILE_STRUCTURE` are mapped to their netCDF variable name, everything else
goes to `variables` directly; a missing variable is a `KeyError`. -/
def MIRSFileReader.getvar (r : MIRSFileReader) (item : String) :
    Except PyErr NCVar :=
  match FILE_STRUCTURE item with
  | some e =>
    match r.nc.var? e.var_name with
    | some v => .ok v
    | none => .error .keyError
  | none =>
    match r.nc.var? item with
    | some v => .ok v
    | none => .error .keyError

/-- Method `MIRSFileReader.get_fill_value`.  The per-variable branch runs
only when the entry's `fill_attr_name` is truthy (it is `None` for every
entry of `FILE_STRUCTURE`); otherwise the file-wide `missing_value`
attribute is consulted.  The final debug-log line evaluates
`float(fill_value)` unconditionally, so a still-`None` fill value raises
`TypeError` instead of being returned. -/
def MIRSFileReader.get_fill_value (r : MIRSFileReader) (item : String) :
    Except PyErr ℚ := do
  let fill0 : Option ℚ ←
    match FILE_STRUCTURE item with
    | some e =>
      match e.fill_attr_name with
      | some fattr =>
        match r.nc.var? e.var_name with
        | none => .error .keyError
        | some v =>
          match v.attr? fattr with
          | none => .error .attributeError
          | some q => .ok (some q)
      | none => .ok (none : Option ℚ)
    | none => .ok (none : Option ℚ)
  let fill1 : Option ℚ :=
    match fill0 with
    | some q => some q
    | none => r.nc.missing_value
  match fill1 with
  | none => .error .typeError
  | some q => .ok q

/-- Method `MIRSFileReader.get_scale_value`: reads the declared scale
attribute when `FILE_STRUCTURE` names one, else returns `None`. -/
def MIRSFileReader.get_scale_value (r : MIRSFileReader) (item : String) :
    Except PyErr (Option ℚ) :=
  match FILE_STRUCTURE item with
  | some e =>
    match e.scale_attr_name with
    | some sattr =>
      match r.nc.var? e.var_name with
      | none => .error .keyError
      | some v =>
        match v.attr? sattr with
        | none => .error .attributeError
        | some q => .ok (some q)
    | none => .ok none
  | none => .ok none

/-- Python truthiness of an optional float (`if file_scale:`,
`if freq:`): `None` and `0.0` are falsy. -/
def pyTruthy : Option ℚ → Bool
  | none => false
  | some q => q != 0

/-- Indices at which the frequency axis equals the requested frequency:
`numpy.nonzero(freq_var[:] == freq)[0]`. -/
def npNonzeroIdxs (axis : List ℚ) (f : ℚ) : List ℕ :=
  (axis.enum.filter (fun p => decide (p.2 = f))).map Prod.fst

/-- Truth value of a numpy index array (`if freq_idx:`): an empty array is
falsy, a one-element array has the truth value of its element, and a
larger array raises `ValueError` (ambiguous truth value). -/
def npArrayTruthy : List ℕ → Except PyErr Bool
  | [] => .ok false
  | [i] => .ok (decide (i ≠ 0))
  | _ => .error .valueAmbiguous

/-- Frequency axis of the file: the data of `self[FREQ_VAR]`. -/
def MIRSFileReader.freqAxis (r : MIRSFileReader) : Except PyErr (List ℚ) := do
  let v ← r.getvar FREQ_VAR
  match v.data with
  | .d1 a => .ok a
  | _ => .error .dimErr

/-- Method `MIRSFileReader.filter_by_frequency`: find the index of the
requested frequency on the frequency axis and select the corresponding
slice of the array; when the index array is falsy, raise the
frequency-does-not-exist `ValueError`. -/
def MIRSFileReader.filter_by_frequency (r : MIRSFileReader)
    (slices : List (List (List ℚ))) (f : ℚ) :
    Except PyErr (List (List ℚ)) := do
  let axis ← r.freqAxis
  let idxs := npNonzeroIdxs axis f
  let b ← npArrayTruthy idxs
  if b then
    match slices.get? (idxs.headD 0) with
    | some s => .ok s
    | none => .error .indexError
  else
    .error .valueFreqNotFound

/-- Lines 215 and 216 of `get_swath_data`: apply the frequency-channel
selection when the entry declares a (truthy) frequency, otherwise pass the
2-D data through.  The `astype(float32)` conversion commutes with slice
selection, so selection is performed on the raw rationals. -/
def MIRSFileReader.applyFreq (r : MIRSFileReader) (freqo : Option ℚ)
    (vd : VarData) : Except PyErr (List (List ℚ)) :=
  match freqo with
  | some f =>
    if f = 0 then
      match vd with
      | .d2 a => .ok a
      | _ => .error .dimErr
    else
      match vd with
      | .d3 slices => r.filter_by_frequency slices f
      | _ => .error .dimErr
  | none =>
    match vd with
    | .d2 a => .ok a
    | _ => .error .dimErr

/-- Elementwise scale normalization (`var_data / file_scale`). -/
def scaleCell (s : ℚ) : NpVal → NpVal
  | .num q => .num (q / s)
  | .nan => .nan

/-- Elementwise fill substitution (`var_data[var_data == file_fill] = fill`
with `fill = numpy.nan`); numpy equality against nan is false. -/
def fillCell (fv : ℚ) : NpVal → NpVal
  | .num q => if q = fv then .nan else .num q
  | .nan => .nan

/-- Method `MIRSFileReader.get_swath_data`: read the variable, apply
frequency-channel selection, then scale normalization when the scale value
is truthy, then fill substitution when the fill value is truthy. -/
def MIRSFileReader.get_swath_data (r : MIRSFileReader) (item : String) :
    Except PyErr Arr := do
  let v ← r.getvar item
  let entry ←
    match FILE_STRUCTURE item with
    | some e => Except.ok e
    | none => Except.error PyErr.keyError
  let raw ← r.applyFreq entry.frequency v.data
  let var0 : Arr := raw.map (fun row => row.map NpVal.num)
  let file_fill ← r.get_fill_value item
  let file_scale ← r.get_scale_value item
  let var1 : Arr :=
    if pyTruthy file_scale then
      var0.map (fun row => row.map (scaleCell (file_scale.getD 0)))
    else var0
  let var2 : Arr :=
    if file_fill = 0 then var1
    else var1.map (fun row => row.map (fillCell file_fill))
  .ok var2

/-- Attribute lookup `other.start_time` as performed by
`MIRSFileReader._compare`: the class defines `begin_time` and `end_time`
in its constructor but no attribute named `start_time`, so this lookup
raises `AttributeError` for every reader. -/
def MIRSFileReader.start_time_attr (_ : MIRSFileReader) : Option ℕ := none

/-- Method `MIRSFileReader._compare`: applies the comparison method to
`self.begin_time` and `other.start_time`.  The `AttributeError` from the
missing `start_time` attribute is caught, and the handler executes
`raise NotImplemented`, which itself raises `TypeError` because
`NotImplemented` is not an exception. -/
def MIRSFileReader.pyCompare (self other : MIRSFileReader)
    (m : ℕ → ℕ → Bool) : Except PyErr Bool :=
  match other.start_time_attr with
  | some t => .ok (m self.begin_time t)
  | none => .error .typeError

/-- Operator `MIRSFileReader.__lt__`, the comparison `sorted` uses. -/
def readerLt (a b : MIRSFileReader) : Except PyErr Bool :=
  a.pyCompare b (fun s o => decide (s < o))

/-- Stable insertion of an element into a list using a fallible
less-than comparison, mirroring how Python's stable `sorted` consults
`__lt__` between elements. -/
def insertLtE {α : Type} (lt : α → α → Except PyErr Bool) (x : α) :
    List α → Except PyErr (List α)
  | [] => .ok [x]
  | y :: ys => do
    let b ← lt x y
    if b then
      .ok (x :: y :: ys)
    else
      let r ← insertLtE lt x ys
      .ok (y :: r)

/-- Fallible stable sort by a less-than comparison (`sorted`).  A list of
at most one element is returned without consulting the comparison; any
longer list performs at least one comparison. -/
def sortLtE {α : Type} (lt : α → α → Except PyErr Bool) :
    List α → Except PyErr (List α)
  | [] => .ok []
  | x :: xs => do
    let r ← sortLtE lt xs
    insertLtE lt x r

/-- Ensemble of granule readers for one file kind (`MIRSMultiReader`). -/
structure MIRSMultiReader where
  file_readers : List MIRSFileReader
  files_finalized : Bool
  deriving DecidableEq, Repr

/-- Method `MIRSMultiReader.add_file`: refuses with `RuntimeError` when
the ensemble is already finalized, otherwise constructs a reader and
appends it.  A `.error` result leaves the caller's ensemble unchanged in
this state-passing embedding. -/
def MIRSMultiReader.add_file (env : FileEnv) (s : MIRSMultiReader)
    (fn : String) : Except PyErr MIRSMultiReader :=
  if s.files_finalized then .error .runtimeFinalized
  else do
    let r ← MIRSFileReader.open env fn
    .ok { s with file_readers := s.file_readers ++ [r] }

/-- Method `MIRSMultiReader.add_files`. -/
def MIRSMultiReader.add_files (env : FileEnv) (s : MIRSMultiReader) :
    List String → Except PyErr MIRSMultiReader
  | [] => .ok s
  | fn :: fns => do
    let s2 ← MIRSMultiReader.add_file env s fn
    MIRSMultiReader.add_files env s2 fns

/-- Method `MIRSMultiReader.finalize_files`: sorts the readers with
`sorted` (which consults `MIRSFileReader.__lt__`) and marks the ensemble
finalized. -/
def MIRSMultiReader.finalize_files (s : MIRSMultiReader) :
    Except PyErr MIRSMultiReader := do
  let fr ← sortLtE readerLt s.file_readers
  .ok { file_readers := fr, files_finalized := true }

/-- Constructor `MIRSMultiReader.__init__(filenames)`: when the filename
list is truthy, add every file then finalize. -/
def MIRSMultiReader.ofFiles (env : FileEnv) (filenames : List String) :
    Except PyErr MIRSMultiReader :=
  if filenames.isEmpty then .ok ⟨[], false⟩
  else do
    let s ← MIRSMultiReader.add_files env ⟨[], false⟩ filenames
    MIRSMultiReader.finalize_files s

/-- Property access `self.file_readers[0]`, an `IndexError` when the
ensemble is empty. -/
def MIRSMultiReader.firstReader (s : MIRSMultiReader) :
    Except PyErr MIRSFileReader :=
  match s.file_readers.head? with
  | some r => .ok r
  | none => .error .indexError

/-- Property access `self.file_readers[-1]` (used by `end_time`). -/
def MIRSMultiReader.lastReader (s : MIRSMultiReader) :
    Except PyErr MIRSFileReader :=
  match s.file_readers.getLast? with
  | some r => .ok r
  | none => .error .indexError

/-- Property `MIRSMultiReader.filepaths`. -/
def MIRSMultiReader.filepaths (s : MIRSMultiReader) : List String :=
  s.file_readers.map (·.filepath)

/-- Modelled from the spec: `polar2grid.core.fbf.FileAppender` (imported
by the module but not part of the sources under verification).  Per the
spec it appends each array's rows to one contiguous output stream in call
order and tracks the accumulated row/column extent; the spec notes the
reference implementation performs no column-consistency check. -/
structure FileAppender where
  written : List (List NpVal)
  deriving DecidableEq, Repr

/-- Append one decoded array's rows to the stream. -/
def FileAppender.append (fa : FileAppender) (arr : Arr) : FileAppender :=
  { written := fa.written ++ arr }

/-- Accumulated (rows, cols) extent of the stream: the number of rows
written and the column extent of the stream's first row. -/
def FileAppender.shape (fa : FileAppender) : ℕ × ℕ :=
  (fa.written.length, (fa.written.headD []).length)

/-- Loop body of `write_var_to_flat_binary`: decode each reader's data for
the item in reader order and append it to the file appender. -/
def writeLoop (item : String) (fa : FileAppender) :
    List MIRSFileReader → Except PyErr FileAppender
  | [] => .ok fa
  | r :: rs => do
    let arr ← r.get_swath_data item
    writeLoop item (fa.append arr) rs

/-- Method `MIRSMultiReader.write_var_to_flat_binary`: append every
reader's decoded array to one flat stream and return the accumulated
shape.  The code returns only the shape (the stream itself goes to disk);
the embedding also returns the stream contents so that properties about
the written data can be stated. -/
def MIRSMultiReader.write_var_to_flat_binary (s : MIRSMultiReader)
    (item : String) : Except PyErr ((ℕ × ℕ) × List (List NpVal)) := do
  let fa ← writeLoop item ⟨[]⟩ s.file_readers
  .ok (fa.shape, fa.written)

/-- Decoded arrays of a list of readers, in reader order (the sequence of
`get_swath_data` results the aggregation loop consumes). -/
def decodeAll (item : String) :
    List MIRSFileReader → Except PyErr (List Arr)
  | [] => .ok []
  | r :: rs => do
    let a ← r.get_swath_data item
    let as ← decodeAll item rs
    .ok (a :: as)

/-- Suffix test `filepath.endswith(".nc")`, performed on the underlying
character lists (`String.endsWith` itself is defined by well-founded
recursion and does not evaluate inside the kernel). -/
def pyEndsWith (s suffix : String) : Bool :=
  suffix.data.isSuffixOf s.data

/-- Function `get_file_type`: paths not ending in `.nc` are rejected
before the file is opened; otherwise the file is opened (an unreadable
file propagates the `Dataset` exception) and matched against every known
file class — `FILE_CLASSES` holds the single entry `FT_IMG`, whose check
is `handles_file`. -/
def get_file_type (files : FileEnv) (filepath : String) :
    Except PyErr (Option String) :=
  if pyEndsWith filepath ".nc" then
    match files filepath with
    | none => .error .ioError
    | some nc => if handles_file nc then .ok (some FT_IMG) else .ok none
  else .ok none

/-- Filesystem visible to discovery: `dirs` maps a directory path to its
immediate children (already joined with the directory, as
`os.path.join(p, fn)` does), `files` maps a readable file path to its
netCDF content.  `os.path.isdir` and `os.path.isfile` are the two
`isSome` tests, consulted in that order as the code does. -/
structure FS where
  dirs : String → Option (List String)
  files : FileEnv

/-- Classification of the children of one directory inside
`Frontend.find_all_files`: unrecognized children are skipped. -/
def classifyChildren (fs : FS) :
    List String → Except PyErr (List (String × String))
  | [] => .ok []
  | c :: cs => do
    let t ← get_file_type fs.files c
    let rest ← classifyChildren fs cs
    match t with
    | some k => .ok ((k, c) :: rest)
    | none => .ok rest

/-- Generator `Frontend.find_all_files`, collected to a list of
`(file_kind, path)` pairs: directories contribute their classified
children, plain files contribute themselves when recognized, and
nonexistent paths as well as unrecognized files are logged and skipped. -/
def findLoop (fs : FS) : List String → Except PyErr (List (String × String))
  | [] => .ok []
  | p :: ps =>
    match fs.dirs p with
    | some children => do
      let here ← classifyChildren fs children
      let rest ← findLoop fs ps
      .ok (here ++ rest)
    | none =>
      if (fs.files p).isSome then do
        let t ← get_file_type fs.files p
        let rest ← findLoop fs ps
        match t with
        | some k => .ok ((k, p) :: rest)
        | none => .ok rest
      else findLoop fs ps

/-- Insertion of one `(file_kind, path)` pair into the
`recognized_files` mapping, keeping first-seen kind order and appending
paths per kind. -/
def addRecognized (acc : List (String × List String))
    (kp : String × String) : List (String × List String) :=
  if acc.any (fun e => e.1 == kp.1) then
    acc.map (fun e => if e.1 == kp.1 then (e.1, e.2 ++ [kp.2]) else e)
  else acc ++ [(kp.1, [kp.2])]

/-- The discovery frontend after construction (`Frontend`). -/
structure Frontend where
  recognized_files : List (String × List String)
  deriving Repr

/-- Constructor `Frontend.__init__`: an empty search-path list defaults to
the current directory, the found pairs are grouped by file kind, and an
empty result is the fatal no-useable-files `RuntimeError`. -/
def Frontend.init (fs : FS) (search_paths : List String) :
    Except PyErr Frontend := do
  let sp := if search_paths.isEmpty then ["."] else search_paths
  let found ← findLoop fs sp
  let recognized := found.foldl addRecognized []
  if recognized.isEmpty then .error .runtimeNoUseableFiles
  else .ok ⟨recognized⟩

/-- Product definition class `MIRSProductDefiniton` (source spelling),
flattened with its `ProductDefinition` base-class fields. -/
structure MIRSProductDefiniton where
  name : String
  data_kind : String
  file_type : String
  file_key : String
  dependencies : List String
  description : String
  units : String
  is_geoproduct : Bool
  deriving DecidableEq, Repr

/-- Product name constants. -/
def PRODUCT_RAIN_RATE : String := "rain_rate"

def PRODUCT_BT_88 : String := "btemp_88"

def PRODUCT_LATITUDE : String := "latitude"

def PRODUCT_LONGITUDE : String := "longitude"

/-- The registry `PRODUCTS` as built at module import.  The registry is a
mutable `ProductList` in the source whose `add_product` accepts a
`dependencies` keyword, so the operations below are stated over an
arbitrary catalog and instantiated with this one. -/
def PRODUCTS : List MIRSProductDefiniton :=
  [ ⟨PRODUCT_RAIN_RATE, "rain_rate", FT_IMG, RR_VAR, [], "Rain Rate",
      "mm/hr", false⟩,
    ⟨PRODUCT_BT_88, "btemp", FT_IMG, BT_88_VAR, [],
      "Channel Brightness Temperature at 88.2GHz", "K", false⟩,
    ⟨PRODUCT_LATITUDE, "latitude", FT_IMG, LAT_VAR, [], "Latitude",
      "degrees", true⟩,
    ⟨PRODUCT_LONGITUDE, "longitude", FT_IMG, LON_VAR, [], "Longitude",
      "degrees", true⟩ ]

/-- Dictionary access `PRODUCTS[name]`. -/
def lookupProduct (prods : List MIRSProductDefiniton) (name : String) :
    Option MIRSProductDefiniton :=
  prods.find? (fun p => p.name == name)

/-- Property `Frontend.available_product_names`: catalog entries with no
dependencies that are not geoproducts. -/
def available_product_names (prods : List MIRSProductDefiniton) :
    List String :=
  (prods.filter (fun p => p.dependencies.isEmpty && !p.is_geoproduct)).map
    (·.name)

/-- Element data-type tag `numpy_to_dtype(numpy.float32)`.  Modelled from
the spec: `polar2grid.core.dtype.numpy_to_dtype` is not part of the
sources under verification; the spec fixes the element type to a 32-bit
floating-point tag. -/
def DTYPE_F32 : String := "real4"

/-- Metadata fields of a `SwathProduct` except the geolocation-companion
references. -/
structure SwathCore where
  product_name : String
  description : String
  units : String
  satellite : String
  instrument : String
  begin_time : ℕ
  end_time : ℕ
  fill_value : NpVal
  swath_rows : ℕ
  swath_cols : ℕ
  data_type : String
  swath_data : String
  source_filenames : List String
  data_kind : String
  rows_per_scan : ℕ
  x_res : ℚ
  y_res : ℚ
  deriving DecidableEq, Repr

/-- Output product `meta.SwathProduct`.  The companion references store
the referenced geoproduct's metadata (`SwathCore`); the referenced
latitude/longitude products carry no companions themselves, so no
information is lost by the two-level representation. -/
structure SwathProduct where
  core : SwathCore
  latitude : Option SwathCore
  longitude : Option SwathCore
  deriving DecidableEq, Repr

/-- Lookup in the `products_created` mapping, in insertion order. -/
def assocSP (l : List (String × SwathProduct)) (k : String) :
    Option SwathProduct :=
  (l.find? (fun e => e.1 == k)).map (·.2)

/-- Method `Frontend._create_raw_swath_object`: write the product's
aggregated variable to a flat binary file and wrap the result with
metadata taken from the owning ensemble; latitude and longitude products
carry no companion references, every other product references the
already-created latitude and longitude products. -/
def create_raw_swath_object (prods : List MIRSProductDefiniton)
    (file_readers : List (String × MIRSMultiReader))
    (products_created : List (String × SwathProduct))
    (product_name : String) : Except PyErr SwathProduct := do
  let pd ←
    match lookupProduct prods product_name with
    | some pd => Except.ok pd
    | none => Except.error PyErr.keyError
  let mr ←
    match (file_readers.find? (fun e => e.1 == pd.file_type)).map (·.2) with
    | some mr => Except.ok mr
    | none => Except.error PyErr.keyError
  let filename := product_name ++ ".dat"
  let res ← mr.write_var_to_flat_binary pd.file_key
  let fr0 ← mr.firstReader
  let frN ← mr.lastReader
  let lat0 := (assocSP products_created PRODUCT_LATITUDE).map (·.core)
  let lon0 := (assocSP products_created PRODUCT_LONGITUDE).map (·.core)
  let isGeoName :=
    product_name == PRODUCT_LATITUDE || product_name == PRODUCT_LONGITUDE
  let latp := if isGeoName then none else lat0
  let lonp := if isGeoName then none else lon0
  .ok { core :=
          { product_name := product_name
            description := pd.description
            units := pd.units
            satellite := fr0.satellite
            instrument := fr0.instrument
            begin_time := fr0.begin_time
            end_time := frN.end_time
            fill_value := NpVal.nan
            swath_rows := res.1.1
            swath_cols := res.1.2
            data_type := DTYPE_F32
            swath_data := filename
            source_filenames := mr.filepaths
            data_kind := pd.data_kind
            rows_per_scan := 0
            x_res := fr0.x_res
            y_res := fr0.y_res }
        latitude := latp
        longitude := lonp }

/-- Dependency loop of `create_scene`: an unknown product is a `KeyError`,
a product with dependencies raises the unsupported-dependency
`NotImplementedError`, and the surviving names become `raw_products`. -/
def depCheck (prods : List MIRSProductDefiniton) :
    List String → Except PyErr (List String)
  | [] => .ok []
  | n :: ns =>
    match lookupProduct prods n with
    | none => .error .keyError
    | some pd =>
      if pd.dependencies.isEmpty then do
        let rest ← depCheck prods ns
        .ok (n :: rest)
      else .error .notImplementedDeps

/-- File-loading loop of `create_scene`: one finalized ensemble per
recognized file kind (`FILE_CLASSES` holds only `FT_IMG`), kept when it
contains at least one reader. -/
def loadLoop (env : FileEnv) :
    List (String × List String) →
    Except PyErr (List (String × MIRSMultiReader))
  | [] => .ok []
  | (ft, fps) :: rest =>
    if ft == FT_IMG then do
      let mr ← MIRSMultiReader.ofFiles env fps
      let tail ← loadLoop env rest
      if mr.file_readers.length ≠ 0 then .ok ((FT_IMG, mr) :: tail)
      else .ok tail
    else .error .keyError

/-- Geoproduct loop of `create_scene`: materialize each geoproduct,
record it in `products_created`, and insert it into the scene only when
the caller requested it. -/
def geoLoop (prods : List MIRSProductDefiniton)
    (file_readers : List (String × MIRSMultiReader))
    (raw_products : List String) :
    List String → List (String × SwathProduct) →
    List (String × SwathProduct) →
    Except PyErr (List (String × SwathProduct) × List (String × SwathProduct))
  | [], created, scene => .ok (created, scene)
  | g :: gs, created, scene => do
    let sw ← create_raw_swath_object prods file_readers created g
    let created2 := created ++ [(g, sw)]
    let scene2 :=
      if g ∈ raw_products then scene ++ [(g, sw)] else scene
    geoLoop prods file_readers raw_products gs created2 scene2

/-- Raw-product loop of `create_scene`: materialize every requested
product not already created and insert it into the scene. -/
def rawLoop (prods : List MIRSProductDefiniton)
    (file_readers : List (String × MIRSMultiReader)) :
    List String → List (String × SwathProduct) →
    List (String × SwathProduct) →
    Except PyErr (List (String × SwathProduct) × List (String × SwathProduct))
  | [], created, scene => .ok (created, scene)
  | n :: ns, created, scene =>
    if (assocSP created n).isSome then
      rawLoop prods file_readers ns created scene
    else do
      let sw ← create_raw_swath_object prods file_readers created n
      rawLoop prods file_readers ns (created ++ [(n, sw)])
        (scene ++ [(n, sw)])

/-- Method `Frontend.create_scene`.  `list(set(products))` deduplicates
the request in an unspecified order; the embedding uses `List.dedup`,
and every property proved below is independent of that order.  The code
returns only the scene; the embedding returns the pair
`(products_created, scene)` so that the materialization order, which the
code realizes as side effects, can be observed. -/
def create_scene (prods : List MIRSProductDefiniton) (env : FileEnv)
    (recognized_files : List (String × List String))
    (products? : Option (List String)) (nprocs : ℕ) :
    Except PyErr
      (List (String × SwathProduct) × List (String × SwathProduct)) :=
  if nprocs ≠ 1 then .error .notImplementedConcurrency
  else do
    let products := (products?.getD (available_product_names prods)).dedup
    let raw_products ← depCheck prods products
    let file_readers ← loadLoop env recognized_files
    let cs ← geoLoop prods file_readers raw_products
      [PRODUCT_LATITUDE, PRODUCT_LONGITUDE] [] []
    rawLoop prods file_readers raw_products cs.1 cs.2

/-- Path candidates that discovery classifies: the children of every
directory among the search paths plus every search path that is itself a
readable file; nonexistent paths contribute nothing. -/
def candidatesOf (fs : FS) : List String → List String
  | [] => []
  | p :: ps =>
    (match fs.dirs p with
     | some children => children
     | none => if (fs.files p).isSome then [p] else []) ++ candidatesOf fs ps

/-- Whether classification assigns a candidate some known file kind. -/
def isRecognized (fs : FS) (c : String) : Bool :=
  match get_file_type fs.files c with
  | .ok (some _) => true
  | _ => false

/-- Recognized `(file_kind, path)` pair produced by a candidate, if any. -/
def pickRecognized (fs : FS) (c : String) : Option (String × String) :=
  match get_file_type fs.files c with
  | .ok (some k) => some (k, c)
  | _ => none

/- Concrete inputs used by the closed evaluation theorems below. -/

/-- A well-formed one-row MIRS granule file. -/
def ncW : NCFile :=
  { project := "Microwave Integrated Retrieval System"
    title := "MIRS IMG"
    data_model := "NETCDF4"
    satellite_name := "npp"
    instrument_name := "atms"
    time_coverage_start := 100
    time_coverage_end := 200
    geospatial_lon_resolution := 1
    geospatial_lat_resolution := 1
    missing_value := some 9999
    varlist :=
      [ ("RR", ⟨.d2 [[2]], [("scale", 0)]⟩),
        ("Latitude", ⟨.d2 [[5]], []⟩),
        ("Longitude", ⟨.d2 [[6]], []⟩) ] }

/-- Environment holding the single granule file `a.nc`. -/
def envW : FileEnv := fun p => if p == "a.nc" then some ncW else none

/-- A second valid granule whose coverage starts before `ncW`. -/
def ncEarlier : NCFile :=
  { ncW with time_coverage_start := 50, time_coverage_end := 90 }

/-- Granule carrying a frequency-indexed brightness-temperature variable
whose requested channel (88.2 GHz) sits at index 0 of the frequency
axis. -/
def ncFreq0 : NCFile :=
  { ncW with varlist :=
      [ ("BT", ⟨.d3 [[[1, 2]], [[3, 4]]], [("scale", 0)]⟩),
        ("Freq", ⟨.d1 [mkRat 441 5, 157], []⟩) ] }

/-- Granule declaring a zero file-wide fill sentinel. -/
def ncFillZero : NCFile :=
  { ncW with missing_value := some 0
             varlist := [("RR", ⟨.d2 [[3]], [("scale", 0)]⟩)] }

/-- Granule declaring no fill sentinel at all. -/
def ncFillNone : NCFile :=
  { ncW with missing_value := none
             varlist := [("RR", ⟨.d2 [[3]], [("scale", 0)]⟩)] }

/-- Granule whose rain-rate array has two columns. -/
def ncCols2 : NCFile :=
  { ncW with varlist := [("RR", ⟨.d2 [[1, 2]], [("scale", 0)]⟩)] }

/-- Granule whose rain-rate array has three columns. -/
def ncCols3 : NCFile :=
  { ncW with varlist := [("RR", ⟨.d2 [[1, 2, 3]], [("scale", 0)]⟩)] }

/-- Granule whose rain-rate array has two rows of two columns. -/
def ncRows2 : NCFile :=
  { ncW with varlist := [("RR", ⟨.d2 [[3, 4], [5, 6]], [("scale", 0)]⟩)] }

/-- Granule used for the decoding witnesses: scale factor 2, file-wide
fill sentinel 7. -/
def ncScaled : NCFile :=
  { ncW with missing_value := some 7
             varlist := [("RR", ⟨.d2 [[10, 20]], [("scale", 2)]⟩)] }

/-- Granule declaring a zero scale factor and a zero fill sentinel. -/
def ncZeros : NCFile :=
  { ncW with missing_value := some 0
             varlist := [("RR", ⟨.d2 [[10, 20]], [("scale", 0)]⟩)] }

/-- File that is valid netCDF but fails the MIRS descriptor check. -/
def ncBad : NCFile := { ncW with project := "SomethingElse" }

/-- Filesystem with one directory holding a valid granule, a file failing
format validation, and a non-netCDF file. -/
def fsW : FS :=
  { dirs := fun p =>
      if p == "d" then some ["d/good.nc", "d/bad.nc", "d/notes.txt"]
      else none
    files := fun p =>
      if p == "d/good.nc" then some ncW
      else if p == "d/bad.nc" then some ncBad
      else none }

/-- Catalog holding one product that depends on another product. -/
def prodsDep : List MIRSProductDefiniton :=
  PRODUCTS ++
    [⟨"rain_category", "category", FT_IMG, RR_VAR, [PRODUCT_RAIN_RATE],
      "Binned rain rate", "", false⟩]

/-- Decoded arrays of the two-granule ensemble used by the aggregation
witness. -/
def arrsW : List Arr :=
  [ [[NpVal.num 1, NpVal.num 2]],
    [[NpVal.num 3, NpVal.num 4], [NpVal.num 5, NpVal.num 6]] ]

/-- Latitude swath produced by `create_scene` over `envW`. -/
def swLatW : SwathProduct :=
  { core :=
      { product_name := PRODUCT_LATITUDE
        description := "Latitude"
        units := "degrees"
        satellite := "npp"
        instrument := "atms"
        begin_time := 100
        end_time := 200
        fill_value := NpVal.nan
        swath_rows := 1
        swath_cols := 1
        data_type := DTYPE_F32
        swath_data := "latitude.dat"
        source_filenames := ["a.nc"]
        data_kind := "latitude"
        rows_per_scan := 0
        x_res := 1
        y_res := 1 }
    latitude := none
    longitude := none }

/-- Longitude swath produced by `create_scene` over `envW`. -/
def swLonW : SwathProduct :=
  { core :=
      { product_name := PRODUCT_LONGITUDE
        description := "Longitude"
        units := "degrees"
        satellite := "npp"
        instrument := "atms"
        begin_time := 100
        end_time := 200
        fill_value := NpVal.nan
        swath_rows := 1
        swath_cols := 1
        data_type := DTYPE_F32
        swath_data := "longitude.dat"
        source_filenames := ["a.nc"]
        data_kind := "longitude"
        rows_per_scan := 0
        x_res := 1
        y_res := 1 }
    latitude := none
    longitude := none }

/-- Rain-rate swath produced by `create_scene` over `envW`, referencing
the two geoproducts. -/
def swRRW : SwathProduct :=
  { core :=
      { product_name := PRODUCT_RAIN_RATE
        description := "Rain Rate"
        units := "mm/hr"
        satellite := "npp"
        instrument := "atms"
        begin_time := 100
        end_time := 200
        fill_value := NpVal.nan
        swath_rows := 1
        swath_cols := 1
        data_type := DTYPE_F32
        swath_data := "rain_rate.dat"
        source_filenames := ["a.nc"]
        data_kind := "rain_rate"
        rows_per_scan := 0
        x_res := 1
        y_res := 1 }
    latitude := some swLatW.core
    longitude := some swLonW.core }

/-- Materialization record of the witness `create_scene` run. -/
def createdW : List (String × SwathProduct) :=
  [(PRODUCT_LATITUDE, swLatW), (PRODUCT_LONGITUDE, swLonW),
    (PRODUCT_RAIN_RATE, swRRW)]

/-- Scene returned by the witness `create_scene` run: the geoproducts
were not requested, so only the rain-rate product is present. -/
def sceneW : List (String × SwathProduct) := [(PRODUCT_RAIN_RATE, swRRW)]

/- Helper lemmas about the `Except` monad's bind. -/

@[simp] theorem ok_bind {α β : Type} (a : α) (f : α → Except PyErr β) :
    (Except.ok a >>= f) = f a := rfl

@[simp] theorem error_bind {α β : Type} (e : PyErr)
    (f : α → Except PyErr β) :
    ((Except.error e : Except PyErr α) >>= f) = .error e := rfl

/-- Decoding all readers succeeding means the aggregation loop appends the
decoded arrays, flattened, after whatever the appender already holds. -/
theorem writeLoop_eq_of_decodeAll {item : String}
    {rs : List MIRSFileReader} {arrs : List Arr}
    (h : decodeAll item rs = .ok arrs) (fa : FileAppender) :
    writeLoop item fa rs = .ok ⟨fa.written ++ arrs.flatten⟩ := by
  induction rs generalizing fa arrs with
  | nil =>
    simp only [decodeAll] at h
    cases h
    simp [writeLoop]
  | cons r rs ih =>
    simp only [decodeAll] at h
    cases hg : r.get_swath_data item with
    | error e => rw [hg] at h; simp at h
    | ok a =>
      rw [hg] at h
      cases hd : decodeAll item rs with
      | error e => rw [hd] at h; simp at h
      | ok as =>
        rw [hd] at h
        simp only [ok_bind] at h
        cases h
        simp only [writeLoop, hg, ok_bind]
        rw [ih hd]
        simp [FileAppender.append, List.append_assoc]

/-- C1 (amended): when the decoded arrays of the ensemble's readers all
have column count `c` and at least one row in total,
`write_var_to_flat_binary` returns shape `(r1 + ... + rk, c)` and the
output stream is the per-granule arrays appended in reader order.  (The
differing-column-count half of the original claim fails: the reference
implementation performs no column check, see the counterexample.) -/
theorem claim1_aggregate_uniform (s : MIRSMultiReader) (item : String)
    (arrs : List Arr) (c : ℕ)
    (hdec : decodeAll item s.file_readers = .ok arrs)
    (hcols : ∀ a ∈ arrs, ∀ row ∈ a, row.length = c)
    (hrows : 0 < (arrs.map List.length).sum) :
    s.write_var_to_flat_binary item =
      .ok (((arrs.map List.length).sum, c), arrs.flatten) := by
  unfold MIRSMultiReader.write_var_to_flat_binary
  rw [writeLoop_eq_of_decodeAll hdec]
  simp only [ok_bind]
  have hlen : arrs.flatten.length = (arrs.map List.length).sum :=
    List.length_flatten arrs
  have hcol : (arrs.flatten.head?.getD []).length = c := by
    cases hflat : arrs.flatten with
    | nil =>
      exfalso
      rw [hflat] at hlen
      simp at hlen
      omega
    | cons h t =>
      have hmem : h ∈ arrs.flatten := by
        rw [hflat]; exact List.mem_cons_self h t
      obtain ⟨a, ha, hha⟩ := List.mem_flatten.mp hmem
      simp [hcols a ha h hha]
  simp [FileAppender.shape, hlen, hcol]

/-- C1 witness: a two-granule ensemble with row counts 1 and 2 and common
column count 2 aggregates to shape (3, 2) with the arrays appended in
reader order. -/
theorem claim1_aggregate_uniform_witness :
    (decodeAll RR_VAR
        (MIRSMultiReader.file_readers
          ⟨[⟨"a.nc", ncCols2⟩, ⟨"b.nc", ncRows2⟩], true⟩) = .ok arrsW ∧
      (∀ a ∈ arrsW, ∀ row ∈ a, row.length = 2) ∧
      0 < (arrsW.map List.length).sum) ∧
    MIRSMultiReader.write_var_to_flat_binary
        ⟨[⟨"a.nc", ncCols2⟩, ⟨"b.nc", ncRows2⟩], true⟩ RR_VAR =
      .ok ((3, 2),
        [[NpVal.num 1, NpVal.num 2], [NpVal.num 3, NpVal.num 4],
          [NpVal.num 5, NpVal.num 6]]) :=
  ⟨⟨rfl, by decide, by decide⟩,
    claim1_aggregate_uniform ⟨[⟨"a.nc", ncCols2⟩, ⟨"b.nc", ncRows2⟩], true⟩
      RR_VAR arrsW 2 rfl (by decide) (by decide)⟩

/-- C1 counterexample: a finalized ensemble whose decoded arrays have 2
and 3 columns aggregates without any `ShapeMismatchError`; the call
returns normally, refuting the claim that disagreeing column counts make
`write_var_to_flat_binary` fail. -/
theorem claim1_counterexample :
    MIRSMultiReader.write_var_to_flat_binary
        ⟨[⟨"a.nc", ncCols2⟩, ⟨"b.nc", ncCols3⟩], true⟩ RR_VAR =
      .ok ((2, 2),
        [[NpVal.num 1, NpVal.num 2],
          [NpVal.num 1, NpVal.num 2, NpVal.num 3]]) := rfl

/-- C2 (code bug): finalizing an ensemble of two readers does not sort
them by `begin_time` — it raises.  `MIRSFileReader._compare` reads
`other.start_time`, an attribute no reader defines (readers define
`begin_time`), so the first `__lt__` call inside `sorted` raises
`AttributeError`, and the handler's `raise NotImplemented` raises
`TypeError`. -/
theorem claim2_finalize_two_readers_crashes :
    MIRSMultiReader.finalize_files
        ⟨[⟨"a.nc", ncW⟩, ⟨"b.nc", ncEarlier⟩], false⟩ =
      .error .typeError := rfl

/-- C4 (code bug): the requested 88.2 GHz channel is present at index 0 of
the frequency axis (first conjunct), yet `get_swath_data` raises the
frequency-does-not-exist error instead of returning the slice at index 0,
because `if freq_idx:` on the one-element numpy index array `[0]` is
falsy. -/
theorem claim4_frequency_present_at_index_zero :
    npNonzeroIdxs [mkRat 441 5, 157] (mkRat 441 5) = [0] ∧
    MIRSFileReader.get_swath_data ⟨"f.nc", ncFreq0⟩ BT_88_VAR =
      .error .valueFreqNotFound :=
  ⟨rfl, rfl⟩

/-- C7: calling `add_file` on a finalized ensemble always fails with the
finalized-ensemble `RuntimeError`; in this state-passing embedding the
`.error` result carries no successor state, so the reader sequence is
unchanged. -/
theorem claim7_addfile_after_finalize (env : FileEnv)
    (s : MIRSMultiReader) (fn : String) (h : s.files_finalized = true) :
    MIRSMultiReader.add_file env s fn = .error .runtimeFinalized := by
  simp [MIRSMultiReader.add_file, h]

/-- C7 witness: adding a file to a concrete finalized ensemble fails. -/
theorem claim7_addfile_witness :
    (MIRSMultiReader.files_finalized ⟨[⟨"a.nc", ncW⟩], true⟩ = true) ∧
    MIRSMultiReader.add_file envW ⟨[⟨"a.nc", ncW⟩], true⟩ "b.nc" =
      .error .runtimeFinalized :=
  ⟨rfl, claim7_addfile_after_finalize envW ⟨[⟨"a.nc", ncW⟩], true⟩ "b.nc" rfl⟩

/-- C9 counterexample: a zero fill sentinel is not treated exactly as an
undeclared fill.  With `missing_value = 0` decoding succeeds without
substitution, but with no declared fill anywhere decoding raises
`TypeError` (`float(None)` evaluated in `get_fill_value`'s debug-log
line), so the two behaviors differ. -/
theorem claim9_counterexample :
    MIRSFileReader.get_swath_data ⟨"z.nc", ncFillZero⟩ RR_VAR =
        .ok [[NpVal.num 3]] ∧
    MIRSFileReader.get_swath_data ⟨"n.nc", ncFillNone⟩ RR_VAR =
      .error .typeError :=
  ⟨rfl, rfl⟩

/-- C9 (amended): a zero scale factor is treated exactly like an
undeclared scale (no division in either case, stated as a disjunctive
hypothesis), and a zero fill sentinel suppresses fill substitution, so
the decoded output is the raw array unchanged; a fill sentinel that is
entirely undeclared is, however, not equivalent — it raises `TypeError`
(see the counterexample). -/
theorem claim9_zero_scale_fill (r : MIRSFileReader) (item : String)
    (e : FSEntry) (v : NCVar) (arrRaw : List (List ℚ))
    (hv : r.getvar item = .ok v)
    (he : FILE_STRUCTURE item = some e)
    (hf : r.applyFreq e.frequency v.data = .ok arrRaw)
    (hfill : r.get_fill_value item = .ok 0)
    (hscale : r.get_scale_value item = .ok (some 0) ∨
      r.get_scale_value item = .ok none) :
    r.get_swath_data item =
      .ok (arrRaw.map (fun row => row.map NpVal.num)) := by
  unfold MIRSFileReader.get_swath_data
  rw [hv]
  simp only [ok_bind]
  rw [he]
  simp only [ok_bind]
  rw [hf]
  simp only [ok_bind]
  rw [hfill]
  simp only [ok_bind]
  cases hscale with
  | inl h => rw [h]; simp [pyTruthy]
  | inr h => rw [h]; simp [pyTruthy]

/-- C9 witness: a granule declaring scale 0 and fill 0 decodes to its raw
values with no division and no substitution. -/
theorem claim9_zero_scale_fill_witness :
    (MIRSFileReader.getvar ⟨"z.nc", ncZeros⟩ RR_VAR =
        .ok ⟨.d2 [[10, 20]], [("scale", 0)]⟩ ∧
      FILE_STRUCTURE RR_VAR = some ⟨"RR", some "scale", none, none⟩ ∧
      MIRSFileReader.applyFreq ⟨"z.nc", ncZeros⟩ none
          (.d2 [[10, 20]]) = .ok [[10, 20]] ∧
      MIRSFileReader.get_fill_value ⟨"z.nc", ncZeros⟩ RR_VAR = .ok 0 ∧
      MIRSFileReader.get_scale_value ⟨"z.nc", ncZeros⟩ RR_VAR =
        .ok (some 0)) ∧
    MIRSFileReader.get_swath_data ⟨"z.nc", ncZeros⟩ RR_VAR =
      .ok [[NpVal.num 10, NpVal.num 20]] :=
  ⟨⟨rfl, rfl, rfl, rfl, rfl⟩,
    claim9_zero_scale_fill ⟨"z.nc", ncZeros⟩ RR_VAR
      ⟨"RR", some "scale", none, none⟩ ⟨.d2 [[10, 20]], [("scale", 0)]⟩
      [[10, 20]] rfl rfl rfl rfl (Or.inl rfl)⟩

/-- C3: for a variable with a declared nonzero scale factor `s` and a
declared nonzero fill sentinel, decoding divides the
(frequency-selected) raw array elementwise by `s` first and replaces
exactly the elements whose post-scale value equals the sentinel by NaN
(first conjunct); when no post-scale element equals the sentinel the
output is exactly the raw array divided elementwise by `s` (second
conjunct). -/
theorem claim3_scale_before_fill (r : MIRSFileReader) (item : String)
    (e : FSEntry) (v : NCVar) (s fv : ℚ) (arrRaw : List (List ℚ))
    (hv : r.getvar item = .ok v)
    (he : FILE_STRUCTURE item = some e)
    (hf : r.applyFreq e.frequency v.data = .ok arrRaw)
    (hfill : r.get_fill_value item = .ok fv)
    (hscale : r.get_scale_value item = .ok (some s))
    (hs : s ≠ 0) (hfv : fv ≠ 0) :
    r.get_swath_data item =
      .ok (arrRaw.map (fun row => row.map (fun q =>
        if q / s = fv then NpVal.nan else NpVal.num (q / s)))) ∧
    ((∀ row ∈ arrRaw, ∀ q ∈ row, q / s ≠ fv) →
      r.get_swath_data item =
        .ok (arrRaw.map (fun row => row.map (fun q => NpVal.num (q / s))))) := by
  have hmain : r.get_swath_data item =
      .ok (arrRaw.map (fun row => row.map (fun q =>
        if q / s = fv then NpVal.nan else NpVal.num (q / s)))) := by
    unfold MIRSFileReader.get_swath_data
    rw [hv]
    simp only [ok_bind]
    rw [he]
    simp only [ok_bind]
    rw [hf]
    simp only [ok_bind]
    rw [hfill]
    simp only [ok_bind]
    rw [hscale]
    simp only [ok_bind]
    simp [pyTruthy, hs, hfv, scaleCell, fillCell, List.map_map,
      Function.comp]
  refine ⟨hmain, fun hnone => ?_⟩
  rw [hmain]
  congr 1
  apply List.map_congr_left
  intro row hrow
  apply List.map_congr_left
  intro q hq
  rw [if_neg (hnone row hrow q hq)]

/-- C3 witness: a granule with scale 2 and fill sentinel 7 decodes the
raw row [10, 20] to [5, 10]; no post-scale element hits the sentinel. -/
theorem claim3_scale_before_fill_witness :
    (MIRSFileReader.getvar ⟨"s.nc", ncScaled⟩ RR_VAR =
        .ok ⟨.d2 [[10, 20]], [("scale", 2)]⟩ ∧
      FILE_STRUCTURE RR_VAR = some ⟨"RR", some "scale", none, none⟩ ∧
      MIRSFileReader.applyFreq ⟨"s.nc", ncScaled⟩ none (.d2 [[10, 20]]) =
        .ok [[10, 20]] ∧
      MIRSFileReader.get_fill_value ⟨"s.nc", ncScaled⟩ RR_VAR = .ok 7 ∧
      MIRSFileReader.get_scale_value ⟨"s.nc", ncScaled⟩ RR_VAR =
        .ok (some 2) ∧
      (2 : ℚ) ≠ 0 ∧ (7 : ℚ) ≠ 0) ∧
    MIRSFileReader.get_swath_data ⟨"s.nc", ncScaled⟩ RR_VAR =
      .ok [[NpVal.num 5, NpVal.num 10]] := by
  refine ⟨⟨rfl, rfl, rfl, rfl, rfl, by decide, by decide⟩, ?_⟩
  have hnone : ∀ row ∈ [[(10 : ℚ), 20]], ∀ q ∈ row, q / 2 ≠ 7 := by
    intro row hrow q hq
    simp only [List.mem_singleton] at hrow
    subst hrow
    rcases hq with _ | ⟨_, hq⟩
    · norm_num
    · rcases hq with _ | ⟨_, hq⟩
      · norm_num
      · cases hq
  have h := (claim3_scale_before_fill ⟨"s.nc", ncScaled⟩ RR_VAR
      ⟨"RR", some "scale", none, none⟩ ⟨.d2 [[10, 20]], [("scale", 2)]⟩
      2 7 [[10, 20]] rfl rfl rfl rfl rfl (by decide) (by decide)).2 hnone
  rw [h]
  norm_num

/-- Lemma: the dependency-check loop of `create_scene` fails with the
unsupported-dependency error whenever every requested name is in the
catalog and at least one of them has a non-empty dependency list. -/
theorem depCheck_error_of_dep (prods : List MIRSProductDefiniton) :
    ∀ l : List String,
      (∀ q ∈ l, (lookupProduct prods q).isSome) →
      (∃ p ∈ l, ∃ pd, lookupProduct prods p = some pd ∧
        pd.dependencies ≠ []) →
      depCheck prods l = .error .notImplementedDeps := by
  intro l
  induction l with
  | nil =>
    intro _ hex
    simp at hex
  | cons n ns ih =>
    intro hall hex
    obtain ⟨pdn, hpdn⟩ :=
      Option.isSome_iff_exists.mp (hall n (List.mem_cons_self n ns))
    simp only [depCheck, hpdn]
    by_cases hd : pdn.dependencies.isEmpty
    · rw [if_pos hd]
      have hns : ∃ p ∈ ns, ∃ pd, lookupProduct prods p = some pd ∧
          pd.dependencies ≠ [] := by
        obtain ⟨p, hp, pd, hpd, hdep⟩ := hex
        rcases List.mem_cons.mp hp with heq | hmem
        · subst heq
          rw [hpdn] at hpd
          cases hpd
          exact absurd (List.isEmpty_iff.mp hd) hdep
        · exact ⟨p, hmem, pd, hpd, hdep⟩
      rw [ih (fun q hq => hall q (List.mem_cons_of_mem n hq)) hns]
      rfl
    · rw [if_neg hd]

/-- C5: requesting any product with a non-empty dependency list makes
`create_scene` fail with the unsupported-dependency error, for every
environment and every set of discovered files — the check runs before
any file is opened, so availability of the dependent data is
irrelevant. -/
theorem claim5_dependencies_rejected (prods : List MIRSProductDefiniton)
    (env : FileEnv) (recognized : List (String × List String))
    (ps : List String) (p : String) (pd : MIRSProductDefiniton)
    (hall : ∀ q ∈ ps, (lookupProduct prods q).isSome)
    (hp : p ∈ ps) (hpd : lookupProduct prods p = some pd)
    (hdep : pd.dependencies ≠ []) :
    create_scene prods env recognized (some ps) 1 =
      .error .notImplementedDeps := by
  unfold create_scene
  rw [if_neg (by norm_num)]
  simp only [Option.getD_some]
  rw [depCheck_error_of_dep prods ps.dedup
    (fun q hq => hall q (List.mem_dedup.mp hq))
    ⟨p, List.mem_dedup.mpr hp, pd, hpd, hdep⟩]
  rfl

/-- C5 witness: a catalog extended with a product depending on
`rain_rate`; requesting it fails with the dependency error even though
no file at all is available. -/
theorem claim5_dependencies_rejected_witness :
    ((∀ q ∈ ["rain_category"], (lookupProduct prodsDep q).isSome) ∧
      "rain_category" ∈ ["rain_category"] ∧
      lookupProduct prodsDep "rain_category" =
        some ⟨"rain_category", "category", FT_IMG, RR_VAR,
          [PRODUCT_RAIN_RATE], "Binned rain rate", "", false⟩ ∧
      ([PRODUCT_RAIN_RATE] : List String) ≠ []) ∧
    create_scene prodsDep (fun _ => none) [] (some ["rain_category"]) 1 =
      .error .notImplementedDeps :=
  ⟨⟨by decide, by decide, by decide, by decide⟩,
    claim5_dependencies_rejected prodsDep (fun _ => none) []
      ["rain_category"] "rain_category"
      ⟨"rain_category", "category", FT_IMG, RR_VAR, [PRODUCT_RAIN_RATE],
        "Binned rain rate", "", false⟩
      (by decide) (by decide) (by decide) (by decide)⟩

/-- C10: a path whose name does not end in `.nc` is classified as no file
kind at all, for every possible file content — the extension check runs
before the file is opened, so such a file never enters the discovered
file-kind mapping. -/
theorem claim10_non_nc_rejected (files : FileEnv) (fp : String)
    (h : pyEndsWith fp ".nc" = false) :
    get_file_type files fp = .ok none := by
  simp [get_file_type, h]

/-- C10 witness: a non-`.nc` path is rejected even in an environment where
every path opens to a perfectly valid MIRS granule. -/
theorem claim10_non_nc_rejected_witness :
    (pyEndsWith "granule.txt" ".nc" = false) ∧
    get_file_type (fun _ => some ncW) "granule.txt" = .ok none :=
  ⟨by decide, claim10_non_nc_rejected (fun _ => some ncW) "granule.txt"
    (by decide)⟩

/-- Lemma: a key present in the `products_created` mapping keeps its value
when further products are appended. -/
theorem assocSP_append_of_some {l : List (String × SwathProduct)}
    {k : String} {v : SwathProduct} (h : assocSP l k = some v)
    (l' : List (String × SwathProduct)) : assocSP (l ++ l') k = some v := by
  induction l with
  | nil => simp [assocSP] at h
  | cons e es ih =>
    by_cases hbe : (e.1 == k) = true
    · simp only [assocSP, List.cons_append, List.find?, hbe] at h ⊢
      exact h
    · have hbe2 : (e.1 == k) = false := by simpa using hbe
      simp only [assocSP, List.cons_append, List.find?, hbe2] at h ⊢
      exact ih h

/-- Lemma: inversion of `_create_raw_swath_object`'s companion
attachment — a geoproduct gets no companions, any other product gets the
already-created latitude and longitude products as companions. -/
theorem create_raw_companions {prods : List MIRSProductDefiniton}
    {fr : List (String × MIRSMultiReader)}
    {created : List (String × SwathProduct)} {n : String}
    {sw : SwathProduct}
    (h : create_raw_swath_object prods fr created n = .ok sw) :
    ((n = PRODUCT_LATITUDE ∨ n = PRODUCT_LONGITUDE) →
      sw.latitude = none ∧ sw.longitude = none) ∧
    (n ≠ PRODUCT_LATITUDE → n ≠ PRODUCT_LONGITUDE →
      sw.latitude = (assocSP created PRODUCT_LATITUDE).map (·.core) ∧
      sw.longitude = (assocSP created PRODUCT_LONGITUDE).map (·.core)) := by
  unfold create_raw_swath_object at h
  cases hpd : lookupProduct prods n with
  | none => rw [hpd] at h; simp at h
  | some pd =>
  rw [hpd] at h
  simp only [ok_bind] at h
  cases hmr : (fr.find? (fun e => e.1 == pd.file_type)).map (·.2) with
  | none => rw [hmr] at h; simp at h
  | some mr =>
  rw [hmr] at h
  simp only [ok_bind] at h
  cases hres : mr.write_var_to_flat_binary pd.file_key with
  | error e => rw [hres] at h; simp at h
  | ok res =>
  rw [hres] at h
  simp only [ok_bind] at h
  cases h0 : mr.firstReader with
  | error e => rw [h0] at h; simp at h
  | ok fr0 =>
  rw [h0] at h
  simp only [ok_bind] at h
  cases hN : mr.lastReader with
  | error e => rw [hN] at h; simp at h
  | ok frN =>
  rw [hN] at h
  simp only [ok_bind, Except.ok.injEq] at h
  subst h
  constructor
  · intro hg
    rcases hg with hg | hg <;> subst hg <;> simp
  · intro h1 h2
    have b1 : (n == PRODUCT_LATITUDE) = false := beq_eq_false_iff_ne.mpr h1
    have b2 : (n == PRODUCT_LONGITUDE) = false := beq_eq_false_iff_ne.mpr h2
    simp [b1, b2]

/-- Lemma: a successful dependency check returns the request list
unchanged. -/
theorem depCheck_ok_eq (prods : List MIRSProductDefiniton) :
    ∀ l l' : List String, depCheck prods l = .ok l' → l' = l := by
  intro l
  induction l with
  | nil =>
    intro l' h
    simp only [depCheck, Except.ok.injEq] at h
    exact h.symm
  | cons n ns ih =>
    intro l' h
    simp only [depCheck] at h
    cases hpd : lookupProduct prods n with
    | none =>
      simp only [hpd] at h
      exact Except.noConfusion h
    | some pd =>
      simp only [hpd] at h
      by_cases hd : pd.dependencies.isEmpty
      · rw [if_pos hd] at h
        cases hdc : depCheck prods ns with
        | error e => rw [hdc] at h; simp at h
        | ok rest =>
          rw [hdc] at h
          simp only [ok_bind, Except.ok.injEq] at h
          rw [← h, ih rest hdc]
      · rw [if_neg hd] at h
        simp at h

/-- Lemma: the raw-product loop only appends entries, appends the same
new entries to `products_created` and to the scene, and every appended
entry is a non-geoproduct carrying the already-created latitude and
longitude products as companions. -/
theorem rawLoop_spec (prods : List MIRSProductDefiniton)
    (fr : List (String × MIRSMultiReader)) (swLat swLon : SwathProduct) :
    ∀ (ns : List String) (created scene out1 out2 :
        List (String × SwathProduct)),
      rawLoop prods fr ns created scene = .ok (out1, out2) →
      assocSP created PRODUCT_LATITUDE = some swLat →
      assocSP created PRODUCT_LONGITUDE = some swLon →
      ∃ ext, out1 = created ++ ext ∧ out2 = scene ++ ext ∧
        ∀ e ∈ ext, e.1 ≠ PRODUCT_LATITUDE ∧ e.1 ≠ PRODUCT_LONGITUDE ∧
          e.2.latitude = some swLat.core ∧
          e.2.longitude = some swLon.core := by
  intro ns
  induction ns with
  | nil =>
    intro created scene out1 out2 h hlat hlon
    simp only [rawLoop, Except.ok.injEq, Prod.mk.injEq] at h
    obtain ⟨h1, h2⟩ := h
    exact ⟨[], by simp [h1], by simp [h2], by simp⟩
  | cons n ns ih =>
    intro created scene out1 out2 h hlat hlon
    simp only [rawLoop] at h
    by_cases hmem : (assocSP created n).isSome
    · rw [if_pos hmem] at h
      exact ih created scene out1 out2 h hlat hlon
    · rw [if_neg hmem] at h
      cases hsw : create_raw_swath_object prods fr created n with
      | error e => rw [hsw] at h; simp at h
      | ok sw =>
        rw [hsw] at h
        simp only [ok_bind] at h
        obtain ⟨ext, h1, h2, h3⟩ :=
          ih (created ++ [(n, sw)]) (scene ++ [(n, sw)]) out1 out2 h
            (assocSP_append_of_some hlat _) (assocSP_append_of_some hlon _)
        have hne_lat : n ≠ PRODUCT_LATITUDE := by
          intro heq
          subst heq
          rw [hlat] at hmem
          simp at hmem
        have hne_lon : n ≠ PRODUCT_LONGITUDE := by
          intro heq
          subst heq
          rw [hlon] at hmem
          simp at hmem
        have hcomp := (create_raw_companions hsw).2 hne_lat hne_lon
        refine ⟨(n, sw) :: ext, ?_, ?_, ?_⟩
        · rw [h1]
          simp
        · rw [h2]
          simp
        · intro e he
          rcases List.mem_cons.mp he with heq | hmem2
          · subst heq
            refine ⟨hne_lat, hne_lon, ?_, ?_⟩
            · rw [hcomp.1, hlat]
              rfl
            · rw [hcomp.2, hlon]
              rfl
          · exact h3 e hmem2

/-- Lemma: the scene accumulated by the geoproduct loop holds at most the
latitude and longitude entries, each present exactly when requested. -/
theorem mem_geo_scene {raw : List String} {swLat swLon : SwathProduct}
    {e : String × SwathProduct}
    (he : e ∈ (if PRODUCT_LONGITUDE ∈ raw then
        (if PRODUCT_LATITUDE ∈ raw then [(PRODUCT_LATITUDE, swLat)]
          else []) ++ [(PRODUCT_LONGITUDE, swLon)]
      else if PRODUCT_LATITUDE ∈ raw then [(PRODUCT_LATITUDE, swLat)]
        else [])) :
    (e = (PRODUCT_LATITUDE, swLat) ∧ PRODUCT_LATITUDE ∈ raw) ∨
    (e = (PRODUCT_LONGITUDE, swLon) ∧ PRODUCT_LONGITUDE ∈ raw) := by
  by_cases hco : PRODUCT_LONGITUDE ∈ raw <;>
    by_cases hcl : PRODUCT_LATITUDE ∈ raw <;>
    simp [hco, hcl] at he <;> tauto

/-- C6: every successful `create_scene` call materializes the latitude
product first and the longitude product second, before any other
product; the two geoproducts carry no companion references; every other
materialized product is a non-geoproduct referencing the materialized
latitude and longitude products as companions; a geoproduct appears in
the returned scene only when the caller requested it; and every scene
entry is either a geoproduct or one of the materialized
non-geoproducts. -/
theorem claim6_geoproducts_first (prods : List MIRSProductDefiniton)
    (env : FileEnv) (recognized : List (String × List String))
    (ps : List String) (created scene : List (String × SwathProduct))
    (H : create_scene prods env recognized (some ps) 1 =
      .ok (created, scene)) :
    ∃ swLat swLon ext,
      created =
        (PRODUCT_LATITUDE, swLat) :: (PRODUCT_LONGITUDE, swLon) :: ext ∧
      swLat.latitude = none ∧ swLat.longitude = none ∧
      swLon.latitude = none ∧ swLon.longitude = none ∧
      (∀ e ∈ ext, e.1 ≠ PRODUCT_LATITUDE ∧ e.1 ≠ PRODUCT_LONGITUDE ∧
        e.2.latitude = some swLat.core ∧
        e.2.longitude = some swLon.core) ∧
      (∀ sw, (PRODUCT_LATITUDE, sw) ∈ scene → PRODUCT_LATITUDE ∈ ps) ∧
      (∀ sw, (PRODUCT_LONGITUDE, sw) ∈ scene → PRODUCT_LONGITUDE ∈ ps) ∧
      (∀ e ∈ scene,
        e.1 = PRODUCT_LATITUDE ∨ e.1 = PRODUCT_LONGITUDE ∨ e ∈ ext) := by
  unfold create_scene at H
  rw [if_neg (by norm_num)] at H
  simp only [Option.getD_some] at H
  cases hdep : depCheck prods ps.dedup with
  | error e => rw [hdep] at H; simp at H
  | ok raw =>
  rw [hdep] at H
  simp only [ok_bind] at H
  cases hload : loadLoop env recognized with
  | error e => rw [hload] at H; simp at H
  | ok frs =>
  rw [hload] at H
  simp only [ok_bind, geoLoop] at H
  cases hlat : create_raw_swath_object prods frs [] PRODUCT_LATITUDE with
  | error e => rw [hlat] at H; simp at H
  | ok swLat =>
  rw [hlat] at H
  simp only [ok_bind, List.nil_append] at H
  cases hlon : create_raw_swath_object prods frs [(PRODUCT_LATITUDE, swLat)]
      PRODUCT_LONGITUDE with
  | error e => rw [hlon] at H; simp at H
  | ok swLon =>
  rw [hlon] at H
  simp only [ok_bind, List.cons_append, List.nil_append] at H
  obtain ⟨ext, h1, h2, h3⟩ :=
    rawLoop_spec prods frs swLat swLon raw
      [(PRODUCT_LATITUDE, swLat), (PRODUCT_LONGITUDE, swLon)]
      (if PRODUCT_LONGITUDE ∈ raw then
        (if PRODUCT_LATITUDE ∈ raw then [(PRODUCT_LATITUDE, swLat)]
          else []) ++ [(PRODUCT_LONGITUDE, swLon)]
        else if PRODUCT_LATITUDE ∈ raw then [(PRODUCT_LATITUDE, swLat)]
          else [])
      created scene H rfl rfl
  have hraw : raw = ps.dedup := depCheck_ok_eq prods ps.dedup raw hdep
  have hgeo_lat := (create_raw_companions hlat).1 (Or.inl rfl)
  have hgeo_lon := (create_raw_companions hlon).1 (Or.inr rfl)
  refine ⟨swLat, swLon, ext, by simpa using h1, hgeo_lat.1, hgeo_lat.2,
    hgeo_lon.1, hgeo_lon.2, h3, ?_, ?_, ?_⟩
  · intro sw hsw
    rw [h2] at hsw
    rcases List.mem_append.mp hsw with hin | hin
    · rcases mem_geo_scene hin with ⟨heq, hmem⟩ | ⟨heq, hmem⟩
      · exact List.mem_dedup.mp (hraw ▸ hmem)
      · have hll : PRODUCT_LATITUDE = PRODUCT_LONGITUDE :=
          congrArg Prod.fst heq
        exact absurd hll (by decide)
    · exact absurd rfl ((h3 _ hin).1)
  · intro sw hsw
    rw [h2] at hsw
    rcases List.mem_append.mp hsw with hin | hin
    · rcases mem_geo_scene hin with ⟨heq, hmem⟩ | ⟨heq, hmem⟩
      · have hll : PRODUCT_LONGITUDE = PRODUCT_LATITUDE :=
          congrArg Prod.fst heq
        exact absurd hll (by decide)
      · exact List.mem_dedup.mp (hraw ▸ hmem)
    · exact absurd rfl ((h3 _ hin).2.1)
  · intro e he
    rw [h2] at he
    rcases List.mem_append.mp he with hin | hin
    · rcases mem_geo_scene hin with ⟨heq, _⟩ | ⟨heq, _⟩
      · left
        rw [heq]
      · right
        left
        rw [heq]
    · exact Or.inr (Or.inr hin)

/-- C6 witness: a one-granule environment where only `rain_rate` is
requested.  `create_scene` materializes latitude then longitude then
rain-rate, leaves both geoproducts out of the scene, and attaches them as
companions to the rain-rate product. -/
theorem claim6_geoproducts_first_witness :
    create_scene PRODUCTS envW [(FT_IMG, ["a.nc"])]
        (some [PRODUCT_RAIN_RATE]) 1 = .ok (createdW, sceneW) ∧
    (∃ swLat swLon ext,
      createdW =
        (PRODUCT_LATITUDE, swLat) :: (PRODUCT_LONGITUDE, swLon) :: ext ∧
      swLat.latitude = none ∧ swLat.longitude = none ∧
      swLon.latitude = none ∧ swLon.longitude = none ∧
      (∀ e ∈ ext, e.1 ≠ PRODUCT_LATITUDE ∧ e.1 ≠ PRODUCT_LONGITUDE ∧
        e.2.latitude = some swLat.core ∧
        e.2.longitude = some swLon.core) ∧
      (∀ sw, (PRODUCT_LATITUDE, sw) ∈ sceneW →
        PRODUCT_LATITUDE ∈ [PRODUCT_RAIN_RATE]) ∧
      (∀ sw, (PRODUCT_LONGITUDE, sw) ∈ sceneW →
        PRODUCT_LONGITUDE ∈ [PRODUCT_RAIN_RATE]) ∧
      (∀ e ∈ sceneW,
        e.1 = PRODUCT_LATITUDE ∨ e.1 = PRODUCT_LONGITUDE ∨ e ∈ ext)) :=
  ⟨rfl, claim6_geoproducts_first PRODUCTS envW [(FT_IMG, ["a.nc"])]
    [PRODUCT_RAIN_RATE] createdW sceneW rfl⟩

/-- Lemma: classifying a candidate whose `.nc` variants are readable never
raises — it returns some classification outcome. -/
theorem get_file_type_total {fs : FS} {c : String}
    (hr : pyEndsWith c ".nc" = true → (fs.files c).isSome = true) :
    ∃ t, get_file_type fs.files c = .ok t := by
  unfold get_file_type
  by_cases he : pyEndsWith c ".nc" = true
  · rw [if_pos he]
    obtain ⟨nc, hnc⟩ := Option.isSome_iff_exists.mp (hr he)
    rw [hnc]
    by_cases hh : handles_file nc = true
    · exact ⟨some FT_IMG, if_pos hh⟩
    · exact ⟨none, if_neg hh⟩
  · rw [if_neg he]
    exact ⟨none, rfl⟩

/-- Lemma: classifying a directory's children yields exactly the
recognized ones, skipping the rest, and never raises. -/
theorem classifyChildren_spec {fs : FS} :
    ∀ cs : List String,
      (∀ c ∈ cs, pyEndsWith c ".nc" = true → (fs.files c).isSome = true) →
      classifyChildren fs cs = .ok (cs.filterMap (pickRecognized fs)) := by
  intro cs
  induction cs with
  | nil => intro _; rfl
  | cons c cs ih =>
    intro hr
    obtain ⟨t, ht⟩ := get_file_type_total (hr c (List.mem_cons_self c cs))
    simp only [classifyChildren, ht, ok_bind]
    rw [ih (fun d hd => hr d (List.mem_cons_of_mem c hd))]
    simp only [ok_bind]
    cases t with
    | some k => simp [List.filterMap_cons, pickRecognized, ht]
    | none => simp [List.filterMap_cons, pickRecognized, ht]

/-- Lemma: discovery over the search paths yields exactly the recognized
candidates, skipping nonexistent paths and unrecognized files, and never
raises when the `.nc` candidates are readable. -/
theorem findLoop_spec {fs : FS} :
    ∀ sp : List String,
      (∀ c ∈ candidatesOf fs sp,
        pyEndsWith c ".nc" = true → (fs.files c).isSome = true) →
      findLoop fs sp =
        .ok ((candidatesOf fs sp).filterMap (pickRecognized fs)) := by
  intro sp
  induction sp with
  | nil => intro _; rfl
  | cons p ps ih =>
    intro hr
    simp only [candidatesOf] at hr ⊢
    cases hdir : fs.dirs p with
    | some children =>
      rw [hdir] at hr
      have hrc : ∀ c ∈ children,
          pyEndsWith c ".nc" = true → (fs.files c).isSome = true :=
        fun c hc => hr c (List.mem_append_left _ hc)
      have hrp : ∀ c ∈ candidatesOf fs ps,
          pyEndsWith c ".nc" = true → (fs.files c).isSome = true :=
        fun c hc => hr c (List.mem_append_right _ hc)
      simp only [findLoop, hdir, classifyChildren_spec children hrc,
        ok_bind, ih hrp, List.filterMap_append]
    | none =>
      rw [hdir] at hr
      have hrp : ∀ c ∈ candidatesOf fs ps,
          pyEndsWith c ".nc" = true → (fs.files c).isSome = true :=
        fun c hc => hr c (List.mem_append_right _ hc)
      by_cases hf : (fs.files p).isSome = true
      · obtain ⟨t, ht⟩ := get_file_type_total (fun _ => hf)
        simp only [findLoop, hdir, if_pos hf, ht, ok_bind, ih hrp]
        cases t with
        | some k =>
          simp [if_pos hf, List.filterMap_cons, pickRecognized, ht]
        | none =>
          simp [if_pos hf, List.filterMap_cons, pickRecognized, ht]
      · simp only [findLoop, hdir, if_neg hf, ih hrp]
        simp [if_neg hf]

/-- Lemma: inserting into the `recognized_files` grouping never empties
it. -/
theorem foldl_addRecognized_ne_nil :
    ∀ (l : List (String × String)) (acc : List (String × List String)),
      acc ≠ [] → l.foldl addRecognized acc ≠ [] := by
  intro l
  induction l with
  | nil =>
    intro acc h
    simpa using h
  | cons kp l ih =>
    intro acc h
    simp only [List.foldl_cons]
    cases acc with
    | nil => exact absurd rfl h
    | cons a as =>
      apply ih
      unfold addRecognized
      by_cases hc : (a :: as).any (fun e => e.1 == kp.1) = true
      · rw [if_pos hc]
        simp
      · rw [if_neg hc]
        simp

/-- Lemma: the grouped `recognized_files` mapping is empty exactly when no
pair was found. -/
theorem foldl_addRecognized_eq_nil_iff (l : List (String × String)) :
    l.foldl addRecognized [] = [] ↔ l = [] := by
  cases l with
  | nil => simp
  | cons kp l =>
    simp only [List.foldl_cons]
    have h1 : addRecognized [] kp ≠ [] := by simp [addRecognized]
    have h2 := foldl_addRecognized_ne_nil l (addRecognized [] kp) h1
    simp [h2]

/-- Lemma: a candidate contributes no pair exactly when classification
recognizes it as no known file kind (or would raise). -/
theorem pickRecognized_eq_none_iff (fs : FS) (c : String) :
    pickRecognized fs c = none ↔ isRecognized fs c = false := by
  unfold pickRecognized isRecognized
  cases get_file_type fs.files c with
  | error e => simp
  | ok t =>
    cases t with
    | none => simp
    | some k => simp

/-- C8: when every `.nc` candidate is readable, discovery never aborts on
a candidate that fails format classification — construction either
succeeds or fails with the no-useable-files error (first conjunct), and
it fails with the no-useable-files error precisely when no candidate file
is recognized as any known file kind (second conjunct). -/
theorem claim8_discovery (fs : FS) (sp : List String)
    (Hread : ∀ c ∈ candidatesOf fs (if sp.isEmpty then ["."] else sp),
      pyEndsWith c ".nc" = true → (fs.files c).isSome = true) :
    ((∃ fr, Frontend.init fs sp = .ok fr) ∨
      Frontend.init fs sp = .error .runtimeNoUseableFiles) ∧
    (Frontend.init fs sp = .error .runtimeNoUseableFiles ↔
      ∀ c ∈ candidatesOf fs (if sp.isEmpty then ["."] else sp),
        isRecognized fs c = false) := by
  have hfind := findLoop_spec (if sp.isEmpty then ["."] else sp) Hread
  have hinit : Frontend.init fs sp =
      (if (((candidatesOf fs (if sp.isEmpty then ["."] else sp)).filterMap
            (pickRecognized fs)).foldl addRecognized []).isEmpty then
        .error .runtimeNoUseableFiles
      else
        .ok ⟨((candidatesOf fs (if sp.isEmpty then ["."] else sp)).filterMap
          (pickRecognized fs)).foldl addRecognized []⟩) := by
    simp only [Frontend.init, hfind, ok_bind]
  constructor
  · by_cases hemp : (((candidatesOf fs (if sp.isEmpty then ["."] else
        sp)).filterMap (pickRecognized fs)).foldl
          addRecognized []).isEmpty = true
    · right
      rw [hinit, if_pos hemp]
    · left
      exact ⟨_, by rw [hinit, if_neg hemp]⟩
  · rw [hinit]
    constructor
    · intro herr
      by_cases hemp : (((candidatesOf fs (if sp.isEmpty then ["."] else
          sp)).filterMap (pickRecognized fs)).foldl
            addRecognized []).isEmpty = true
      · have hp := (foldl_addRecognized_eq_nil_iff _).mp
          (List.isEmpty_iff.mp hemp)
        intro c hc
        exact (pickRecognized_eq_none_iff fs c).mp
          (List.filterMap_eq_nil_iff.mp hp c hc)
      · rw [if_neg hemp] at herr
        exact Except.noConfusion herr
    · intro hall
      have hp : (candidatesOf fs (if sp.isEmpty then ["."] else
          sp)).filterMap (pickRecognized fs) = [] :=
        List.filterMap_eq_nil_iff.mpr
          (fun c hc => (pickRecognized_eq_none_iff fs c).mpr (hall c hc))
      rw [hp]
      simp

/-- C8 witness: a directory holding one valid granule, one file failing
format validation, and one non-netCDF file; discovery returns a frontend
and the no-useable-files characterization holds. -/
theorem claim8_discovery_witness :
    (∀ c ∈ candidatesOf fsW (if (["d"] : List String).isEmpty then ["."]
        else ["d"]),
      pyEndsWith c ".nc" = true → (fsW.files c).isSome = true) ∧
    (((∃ fr, Frontend.init fsW ["d"] = .ok fr) ∨
      Frontend.init fsW ["d"] = .error .runtimeNoUseableFiles) ∧
    (Frontend.init fsW ["d"] = .error .runtimeNoUseableFiles ↔
      ∀ c ∈ candidatesOf fsW (if (["d"] : List String).isEmpty then ["."]
          else ["d"]),
        isRecognized fsW c = false)) :=
  ⟨by decide, claim8_discovery fsW ["d"] (by decide)⟩

end MIRS
